import Mathlib

/-!
Verification of the class-schedule-to-calendar importer (src/scheduler.py).

Dates are embedded as year/month/day records together with their proleptic
Gregorian ordinal (Python date.toordinal); machine hashing (hashlib.sha1) is
embedded as an executable SHA-1 over byte lists; strings are Lean strings and
Python str operations (strip, lower, substring test, strptime patterns) are
embedded as executable functions on character lists.
-/

/-- Left rotation of a 32-bit word represented as a Nat below 2^32. -/
def rotl (s x : Nat) : Nat :=
  (((x <<< s) % 4294967296) ||| (x >>> (32 - s)))

/-- SHA-1 message padding: append 0x80, zero bytes to 56 mod 64, then the
64-bit big-endian bit length. -/
def sha1pad (msg : List Nat) : List Nat :=
  let len := msg.length
  let bitLen := 8 * len
  msg ++ [128] ++ List.replicate ((119 - (len % 64)) % 64) 0
      ++ (List.range 8).map (fun i => (bitLen >>> (8 * (7 - i))) % 256)

/-- Split a byte list into chunks of 64 bytes, with fuel for structural
recursion. -/
def chunks64Aux : Nat → List Nat → List (List Nat)
  | 0, _ => []
  | _, [] => []
  | fuel + 1, x :: xs => ((x :: xs).take 64) :: chunks64Aux fuel ((x :: xs).drop 64)

/-- Split a byte list into chunks of 64 bytes. -/
def chunks64 (l : List Nat) : List (List Nat) :=
  chunks64Aux l.length l

/-- Big-endian interpretation of a byte list as a word. -/
def bytesToWord (b : List Nat) : Nat :=
  b.foldl (fun a x => a * 256 + x % 256) 0

/-- The sixteen 32-bit words of one 64-byte chunk. -/
def chunkWords (c : List Nat) : List Nat :=
  (List.range 16).map (fun i => bytesToWord ((c.drop (4 * i)).take 4))

/-- SHA-1 message-schedule expansion from 16 to 80 words. -/
def sha1Schedule (ws : List Nat) : Array Nat :=
  (List.range 64).foldl
    (fun a _ =>
      a.push (rotl 1 ((a.getD (a.size - 3) 0) ^^^ (a.getD (a.size - 8) 0) ^^^
                      (a.getD (a.size - 14) 0) ^^^ (a.getD (a.size - 16) 0))))
    ws.toArray

/-- SHA-1 round function. -/
def sha1f (t b c d : Nat) : Nat :=
  if t < 20 then (b &&& c) ||| ((b ^^^ 4294967295) &&& d)
  else if t < 40 then b ^^^ c ^^^ d
  else if t < 60 then (b &&& c) ||| (b &&& d) ||| (c &&& d)
  else b ^^^ c ^^^ d

/-- SHA-1 round constants. -/
def sha1K (t : Nat) : Nat :=
  if t < 20 then 1518500249
  else if t < 40 then 1859775393
  else if t < 60 then 2400959708
  else 3395469782

/-- SHA-1 compression of one 64-byte chunk into the running state. -/
def sha1Compress (h : Nat × Nat × Nat × Nat × Nat) (chunk : List Nat) :
    Nat × Nat × Nat × Nat × Nat :=
  let w := sha1Schedule (chunkWords chunk)
  let r := (List.range 80).foldl
    (fun s t =>
      match s with
      | (a, b, c, d, e) =>
        ((rotl 5 a + sha1f t b c d + e + sha1K t + w.getD t 0) % 4294967296,
         a, rotl 30 b, c, d))
    h
  match h, r with
  | (h0, h1, h2, h3, h4), (a, b, c, d, e) =>
    ((h0 + a) % 4294967296, (h1 + b) % 4294967296, (h2 + c) % 4294967296,
     (h3 + d) % 4294967296, (h4 + e) % 4294967296)

/-- SHA-1 of a byte list, as the five 32-bit state words. -/
def sha1 (msg : List Nat) : Nat × Nat × Nat × Nat × Nat :=
  (chunks64 (sha1pad msg)).foldl sha1Compress
    (1732584193, 4023233417, 2562383102, 271733878, 3285377520)

/-- The sixteen lowercase hexadecimal digit characters. -/
def hexDigits : List Char :=
  "0123456789abcdef".data

/-- Lowercase hexadecimal digit for a value reduced mod 16. -/
def hexChar (n : Nat) : Char :=
  hexDigits.getD (n % 16) '0'

/-- Eight lowercase hex digits of a 32-bit word, most significant first. -/
def wordHex (w : Nat) : List Char :=
  (List.range 8).map (fun i => hexChar ((w >>> (4 * (7 - i))) % 16))

/-- The 40-character lowercase hexadecimal SHA-1 digest (hashlib hexdigest). -/
def sha1Hexdigest (msg : List Nat) : String :=
  match sha1 msg with
  | (h0, h1, h2, h3, h4) =>
    String.mk (wordHex h0 ++ wordHex h1 ++ wordHex h2 ++ wordHex h3 ++ wordHex h4)

/-- UTF-8 encoding of one character, as a byte list. -/
def utf8EncodeChar (c : Char) : List Nat :=
  let n := c.toNat
  if n < 128 then [n]
  else if n < 2048 then [192 ||| (n >>> 6), 128 ||| (n % 64)]
  else if n < 65536 then
    [224 ||| (n >>> 12), 128 ||| ((n >>> 6) % 64), 128 ||| (n % 64)]
  else
    [240 ||| (n >>> 18), 128 ||| ((n >>> 12) % 64), 128 ||| ((n >>> 6) % 64),
     128 ||| (n % 64)]

/-- UTF-8 encoding of a string, as a byte list (str.encode with utf-8). -/
def utf8Encode (s : String) : List Nat :=
  (s.data.map utf8EncodeChar).flatten

/-- Embeds generate_event_id (src/scheduler.py lines 124-133): join the four
fields with a dash separator, SHA-1 the UTF-8 bytes, keep the first 20 hex
digest characters, prepend the literal tag cls. -/
def generate_event_id (course_code session_type day start_time : String) : String :=
  let raw_id := course_code ++ "-" ++ session_type ++ "-" ++ day ++ "-" ++ start_time
  let hashed := sha1Hexdigest (utf8Encode raw_id)
  "cls" ++ String.mk (hashed.data.take 20)

/-- A lowercase-alphanumeric character: an ASCII digit or lowercase letter. -/
def isLowerAlnum (c : Char) : Bool :=
  c.isDigit || c.isLower

/-- A calendar date, as Python datetime.date. -/
structure Date where
  year : Nat
  month : Nat
  day : Nat
deriving DecidableEq, Repr

/-- Gregorian leap-year rule, as Python calendar.isleap / datetime. -/
def isLeap (y : Nat) : Bool :=
  (y % 4 == 0 && y % 100 != 0) || y % 400 == 0

/-- Number of days in a month of a given year. -/
def daysInMonth (y m : Nat) : Nat :=
  if m == 2 then (if isLeap y then 29 else 28)
  else if m == 4 || m == 6 || m == 9 || m == 11 then 30
  else 31

/-- Days in year y strictly before month m. -/
def daysBeforeMonth (y m : Nat) : Nat :=
  (match m with
   | 1 => 0 | 2 => 31 | 3 => 59 | 4 => 90 | 5 => 120 | 6 => 151
   | 7 => 181 | 8 => 212 | 9 => 243 | 10 => 273 | 11 => 304 | _ => 334)
  + (if 3 ≤ m then (if isLeap y then 1 else 0) else 0)

/-- Days before January 1 of year y in the proleptic Gregorian calendar. -/
def daysBeforeYear (y : Nat) : Nat :=
  365 * (y - 1) + (y - 1) / 4 - (y - 1) / 100 + (y - 1) / 400

/-- Proleptic Gregorian ordinal, as Python date.toordinal (0001-01-01 is 1). -/
def toOrdinal (d : Date) : Nat :=
  daysBeforeYear d.year + daysBeforeMonth d.year d.month + d.day

/-- The successor date: Python date + timedelta(days=1). -/
def nextDay (d : Date) : Date :=
  if d.day < daysInMonth d.year d.month then ⟨d.year, d.month, d.day + 1⟩
  else if d.month < 12 then ⟨d.year, d.month + 1, 1⟩
  else ⟨d.year + 1, 1, 1⟩

/-- Python date.weekday: Monday is 0, Sunday is 6. -/
def pyWeekday (d : Date) : Nat :=
  (toOrdinal d + 6) % 7

/-- A date the Python datetime constructor accepts. -/
def ValidDate (d : Date) : Prop :=
  1 ≤ d.year ∧ 1 ≤ d.month ∧ d.month ≤ 12 ∧ 1 ≤ d.day ∧ d.day ≤ daysInMonth d.year d.month

instance (d : Date) : Decidable (ValidDate d) := by
  unfold ValidDate
  infer_instance

/-- Decimal value of a digit string. -/
def digitsVal (l : List Char) : Nat :=
  l.foldl (fun a c => a * 10 + (c.toNat - 48)) 0

/-- Year field of strptime %Y: exactly four digits. -/
def yearFieldOK (l : List Char) : Bool :=
  l.length == 4 && l.all Char.isDigit

/-- Month field of strptime %m: one or two digits valued 1..12. -/
def monthFieldOK (l : List Char) : Bool :=
  l.all Char.isDigit &&
  (match l with
   | [_] => decide (1 ≤ digitsVal l ∧ digitsVal l ≤ 9)
   | [_, _] => decide (1 ≤ digitsVal l ∧ digitsVal l ≤ 12)
   | _ => false)

/-- Day-of-month field of strptime %d: one or two digits valued 1..31
(1..9 when a single digit). -/
def dayFieldOK (l : List Char) : Bool :=
  l.all Char.isDigit &&
  (match l with
   | [_] => decide (1 ≤ digitsVal l ∧ digitsVal l ≤ 9)
   | [_, _] => decide (1 ≤ digitsVal l ∧ digitsVal l ≤ 31)
   | _ => false)

/-- Embeds datetime.strptime(s, "%Y-%m-%d") followed by the datetime
constructor's range checks; none models the raised ValueError. -/
def parseDate (s : String) : Option Date :=
  match s.data.splitOn '-' with
  | [ys, ms, ds] =>
    if yearFieldOK ys && monthFieldOK ms && dayFieldOK ds then
      if 1 ≤ digitsVal ys ∧ digitsVal ds ≤ daysInMonth (digitsVal ys) (digitsVal ms) then
        some ⟨digitsVal ys, digitsVal ms, digitsVal ds⟩
      else none
    else none
  | _ => none

/-- Embeds the DAY_TO_INT mapping (src/scheduler.py lines 49-57). -/
def DAY_TO_INT (s : String) : Option Nat :=
  if s = "Monday" then some 0
  else if s = "Tuesday" then some 1
  else if s = "Wednesday" then some 2
  else if s = "Thursday" then some 3
  else if s = "Friday" then some 4
  else if s = "Saturday" then some 5
  else if s = "Sunday" then some 6
  else none

/-- Embeds calculate_first_occurrence (src/scheduler.py lines 105-120): parse
the term start date, look the weekday name up, and add the non-negative
Python modulo offset; none models the raised ValueError paths. -/
def calculate_first_occurrence (term_start_str weekday_name : String) : Option Date :=
  match parseDate term_start_str with
  | none => none
  | some term_start =>
    match DAY_TO_INT weekday_name with
    | none => none
    | some target =>
      let delta : Int := ((target : Int) - (pyWeekday term_start : Int)) % 7
      some (nextDay^[delta.toNat] term_start)

/-- Left-pad a string with zeros to a given width (str.zfill). -/
def zfill (w : Nat) (s : String) : String :=
  String.mk (List.replicate (w - s.length) '0') ++ s

/-- strftime "%Y%m%d" at midnight: zero-padded year, month, day digits. -/
def dateBasicFormat (d : Date) : String :=
  zfill 4 (toString d.year) ++ zfill 2 (toString d.month) ++ zfill 2 (toString d.day)

/-- strftime "%Y-%m-%dT%H:%M:%S" of a date combined with an hour and minute
(seconds are zero, as produced by strptime "%I:%M %p"). -/
def dateTimeFormat (d : Date) (hour minute : Nat) : String :=
  zfill 4 (toString d.year) ++ "-" ++ zfill 2 (toString d.month) ++ "-" ++
    zfill 2 (toString d.day) ++ "T" ++ zfill 2 (toString hour) ++ ":" ++
    zfill 2 (toString minute) ++ ":00"

/-- Embeds the recurrence boundary computation (src/scheduler.py lines
155-158): parse term_end_date, add one day, format as %Y%m%dT000000Z; none
models the uncaught ValueError on a malformed date string. -/
def recurrence_end_of (term_end_str : String) : Option String :=
  (parseDate term_end_str).map (fun d => dateBasicFormat (nextDay d) ++ "T000000Z")

/-- Python whitespace characters for str.strip and strptime. -/
def isPySpace (c : Char) : Bool :=
  c == ' ' || c == '\t' || c == '\n' || c == '\r' || c == '\x0b' || c == '\x0c'

/-- Embeds str.strip: drop leading and trailing whitespace. -/
def pyStrip (s : String) : String :=
  String.mk ((((s.data.dropWhile isPySpace).reverse).dropWhile isPySpace).reverse)

/-- Embeds str.lower for the ASCII range (the substrings tested are ASCII). -/
def pyLower (s : String) : String :=
  String.mk (s.data.map Char.toLower)

/-- Whether the second list starts with the first. -/
def leadMatch : List Char → List Char → Bool
  | [], _ => true
  | _ :: _, [] => false
  | a :: as, b :: bs => a == b && leadMatch as bs

/-- Whether sub occurs contiguously inside l. -/
def containsSub : List Char → List Char → Bool
  | [], sub => sub.isEmpty
  | x :: xs, sub => leadMatch sub (x :: xs) || containsSub xs sub

/-- Embeds the Python substring test: sub in s. -/
def pyIn (sub s : String) : Bool :=
  containsSub s.data sub.data

/-- Embeds the session-type classification (src/scheduler.py lines 196-201):
default Lecture, then the lab test, then the tutorial test on the
lower-cased course name. -/
def classifySession (name : String) : String :=
  if pyIn "lab" (pyLower name) then "Lab"
  else if pyIn "tutorial" (pyLower name) then "Tutorial"
  else "Lecture"

/-- Hour field of strptime %I: one digit 1-9, or two digits 01-09 or 10-12. -/
def hourFieldOK (l : List Char) : Bool :=
  l.all Char.isDigit &&
  (match l with
   | [_] => decide (1 ≤ digitsVal l ∧ digitsVal l ≤ 9)
   | [_, _] => decide (1 ≤ digitsVal l ∧ digitsVal l ≤ 12)
   | _ => false)

/-- Minute field of strptime %M: one digit, or two digits valued 00-59. -/
def minuteFieldOK (l : List Char) : Bool :=
  l.all Char.isDigit &&
  (match l with
   | [_] => true
   | [_, _] => decide (digitsVal l ≤ 59)
   | _ => false)

/-- Embeds datetime.strptime(s, "%I:%M %p").time(): CPython lower-cases the
input, matches hour, colon, minute, whitespace, then the am or pm token, and
converts to a 24-hour (hour, minute) pair; none models the ValueError. -/
def parse12h (s : String) : Option (Nat × Nat) :=
  let l := (pyLower s).data
  let timePart := l.takeWhile (fun c => !(isPySpace c))
  let afterTime := l.dropWhile (fun c => !(isPySpace c))
  let spaces := afterTime.takeWhile isPySpace
  let meridiem := afterTime.dropWhile isPySpace
  match timePart.splitOn ':' with
  | [hh, mm] =>
    if hourFieldOK hh && minuteFieldOK mm && !(spaces.isEmpty)
        && (meridiem == ['a', 'm'] || meridiem == ['p', 'm']) then
      let h := digitsVal hh
      let h24 := if meridiem == ['p', 'm'] then (if h == 12 then 12 else h + 12)
                 else (if h == 12 then 0 else h)
      some (h24, digitsVal mm)
    else none
  | _ => none

/-- A built Google Calendar event payload (src/scheduler.py lines 221-237). -/
structure EventBody where
  summary : String
  location : String
  description : String
  startDateTime : String
  endDateTime : String
  timeZone : String
  recurrence : String
  id : String
deriving DecidableEq, Repr

/-- The required CSV headers (src/scheduler.py lines 171-178). -/
def required_headers : List String :=
  ["Course Name", "Course Code", "Day", "Start Time", "End Time", "Location"]

/-- Value of a named column in a row, DictReader style: the cell of the row
at the position of the header name. -/
def getCol (fieldnames : List String) (row : List String) (h : String) : String :=
  (((fieldnames.zip row).lookup h).getD "")

/-- Embeds the per-row body of the main loop (src/scheduler.py lines
186-237): extract and strip the cells, classify the session, resolve the
first occurrence and parse both times (none models the caught ValueError,
which skips the row), then build the event payload. -/
def buildEvent (term_start recurrence_end timezone : String)
    (fieldnames : List String) (row : List String) : Option EventBody :=
  let name := pyStrip (getCol fieldnames row "Course Name")
  let code := pyStrip (getCol fieldnames row "Course Code")
  let day := pyStrip (getCol fieldnames row "Day")
  let start_str := pyStrip (getCol fieldnames row "Start Time")
  let end_str := pyStrip (getCol fieldnames row "End Time")
  let loc := pyStrip (getCol fieldnames row "Location")
  let session_type := classifySession name
  match calculate_first_occurrence term_start day, parse12h start_str, parse12h end_str with
  | some first_date, some st, some et =>
    some
      { summary := code ++ " â€“ " ++ name ++ " (" ++ session_type ++ ")",
        location := loc,
        description := "Session: " ++ session_type ++ "\nCourse: " ++ name,
        startDateTime := dateTimeFormat first_date st.1 st.2,
        endDateTime := dateTimeFormat first_date et.1 et.2,
        timeZone := timezone,
        recurrence := "RRULE:FREQ=WEEKLY;UNTIL=" ++ recurrence_end,
        id := generate_event_id code session_type day start_str }
  | _, _, _ => none

/-- Response of the calendar sink to one insert call: success, or an HTTP
error with a status code (HttpError e with e.resp.status). -/
inductive SinkResp where
  | ok
  | err (status : Nat)
deriving DecidableEq, Repr

/-- Per-row outcome of the import loop. -/
inductive Outcome where
  | created
  | alreadyExists
  | failed
  | skippedRow
deriving DecidableEq, Repr

/-- Embeds the insert try/except (src/scheduler.py lines 240-253): success
prints Created; HttpError with status 409 prints Skipped (Exists); any other
HttpError prints an error message; every branch falls through to the next
row. -/
def classifyResp : SinkResp → Outcome
  | SinkResp.ok => Outcome.created
  | SinkResp.err s => if s == 409 then Outcome.alreadyExists else Outcome.failed

/-- Embeds the row loop of main (src/scheduler.py lines 186-253) over an
abstract stateful sink: each row is built independently; a row that fails to
build is recorded as skipped and the loop continues; a built row is
submitted to the sink and its response classified. -/
def runRows {σ : Type} (sink : σ → EventBody → σ × SinkResp)
    (term_start recurrence_end timezone : String) (fieldnames : List String)
    (s0 : σ) : List (List String) → σ × List Outcome
  | [] => (s0, [])
  | row :: rest =>
    match buildEvent term_start recurrence_end timezone fieldnames row with
    | none =>
      let r := runRows sink term_start recurrence_end timezone fieldnames s0 rest
      (r.1, Outcome.skippedRow :: r.2)
    | some e =>
      let s1 := sink s0 e
      let r := runRows sink term_start recurrence_end timezone fieldnames s1.1 rest
      (r.1, classifyResp s1.2 :: r.2)

/-- Modelled from the spec: the Calendar Sink collaborator (the external
Google Calendar service, not part of src/) with its idempotent-insert
contract — createEvent is keyed by the caller-supplied identifier, succeeds
when the identifier is absent, and reports a duplicate-identifier conflict
(HTTP 409) when it is present. The state is the set of identifiers the sink
already holds. -/
def storeSink (s : List String) (e : EventBody) : List String × SinkResp :=
  if e.id ∈ s then (s, SinkResp.err 409) else (e.id :: s, SinkResp.ok)

/-- The configuration object read from config.json (spec section 6). -/
structure Config where
  csv_filename : Option String
  term_start_date : String
  term_end_date : String
  timezone : Option String
  calendar_id : Option String
deriving DecidableEq, Repr

/-- The environment main runs in: which files and credentials exist, and the
parsed CSV content (header row and data rows). -/
structure Env where
  configExists : Bool
  config : Config
  csvExists : Bool
  credentialsOK : Bool
  fieldnames : List String
  rows : List (List String)
deriving Repr

/-- How a run of main terminates. -/
inductive RunResult where
  | fatalExit (code : Nat)
  | earlyReturn
  | crashed
  | completed (outcomes : List Outcome)
deriving DecidableEq, Repr

/-- The process exit status of a run: sys.exit(code) exits with code, a plain
return from main exits with 0, and an uncaught exception exits with 1. -/
def RunResult.exitStatus : RunResult → Nat
  | RunResult.fatalExit code => code
  | RunResult.earlyReturn => 0
  | RunResult.crashed => 1
  | RunResult.completed _ => 0

/-- Embeds the control flow of main (src/scheduler.py lines 137-255) over an
abstract stateful sink: missing config.json exits with status 1
(load_config, lines 33-43); a missing CSV file prints an error and returns;
missing credential material exits with status 1 (get_calendar_service,
lines 85-88); a malformed term_end_date raises an uncaught ValueError; a
missing required column prints an error and returns; otherwise the rows are
processed in order. -/
def mainRun {σ : Type} (sink : σ → EventBody → σ × SinkResp) (s0 : σ)
    (env : Env) : σ × RunResult :=
  if !env.configExists then (s0, RunResult.fatalExit 1)
  else if !env.csvExists then (s0, RunResult.earlyReturn)
  else if !env.credentialsOK then (s0, RunResult.fatalExit 1)
  else
    match recurrence_end_of env.config.term_end_date with
    | none => (s0, RunResult.crashed)
    | some recurrence_end =>
      if !(required_headers.all (fun h => env.fieldnames.contains h)) then
        (s0, RunResult.earlyReturn)
      else
        let r := runRows sink env.config.term_start_date recurrence_end
          (env.config.timezone.getD "America/Toronto") env.fieldnames s0 env.rows
        (r.1, RunResult.completed r.2)

/-- A concrete five-row batch whose third row has the unrecognized weekday
Funday (the other four rows are well-formed). -/
def exRows : List (List String) :=
  [["Calculus", "MATH101", "Monday", "9:00 AM", "10:00 AM", "R1"],
   ["Physics", "PHYS101", "Tuesday", "9:00 AM", "10:00 AM", "R2"],
   ["Chemistry", "CHEM101", "Funday", "9:00 AM", "10:00 AM", "R3"],
   ["Biology", "BIOL101", "Thursday", "9:00 AM", "10:00 AM", "R4"],
   ["English", "ENGL101", "Friday", "9:00 AM", "10:00 AM", "R5"]]

/-- A concrete well-formed configuration. -/
def exConfig : Config :=
  { csv_filename := some "schedule.csv", term_start_date := "2024-01-08",
    term_end_date := "2024-04-05", timezone := none, calendar_id := none }

/-- A concrete environment whose input table lacks the Location column. -/
def envNoLocation : Env :=
  { configExists := true, config := exConfig, csvExists := true,
    credentialsOK := true,
    fieldnames := ["Course Name", "Course Code", "Day", "Start Time", "End Time"],
    rows := exRows }

/-- A concrete environment whose input table file is missing. -/
def envNoCSV : Env :=
  { configExists := true, config := exConfig, csvExists := false,
    credentialsOK := true, fieldnames := required_headers, rows := exRows }

/-- A concrete environment whose configuration file is missing. -/
def envNoConfig : Env :=
  { configExists := false, config := exConfig, csvExists := true,
    credentialsOK := true, fieldnames := required_headers, rows := exRows }

/-- A concrete environment whose credential material is missing. -/
def envNoCreds : Env :=
  { configExists := true, config := exConfig, csvExists := true,
    credentialsOK := false, fieldnames := required_headers, rows := exRows }

-- ===================== THEOREMS =====================

set_option maxRecDepth 10000 in
example : sha1Hexdigest (utf8Encode "abc") = "a9993e364706816aba3e25717850c26c9cd0d89d" := by decide

lemma hexChar_mem (n : Nat) : hexChar n ∈ hexDigits := by
  unfold hexChar
  rcases Nat.lt_or_ge (n % 16) hexDigits.length with h | h
  · rw [List.getD_eq_getElem _ _ h]
    exact List.getElem_mem h
  · rw [List.getD_eq_default _ _ h]
    decide

lemma hexDigits_lowerAlnum : ∀ c ∈ hexDigits, isLowerAlnum c = true := by decide

lemma wordHex_length (w : Nat) : (wordHex w).length = 8 := by
  simp [wordHex]

lemma wordHex_mem (w : Nat) : ∀ c ∈ wordHex w, c ∈ hexDigits := by
  intro c hc
  rcases List.mem_map.mp hc with ⟨i, _, rfl⟩
  exact hexChar_mem _

lemma sha1Hexdigest_data (msg : List Nat) :
    ∃ a b c d e : Nat,
      (sha1Hexdigest msg).data =
        wordHex a ++ wordHex b ++ wordHex c ++ wordHex d ++ wordHex e := by
  unfold sha1Hexdigest
  rcases h : sha1 msg with ⟨a, b, c, d, e⟩
  exact ⟨a, b, c, d, e, rfl⟩

lemma sha1Hexdigest_length (msg : List Nat) :
    (sha1Hexdigest msg).data.length = 40 := by
  rcases sha1Hexdigest_data msg with ⟨a, b, c, d, e, h⟩
  simp [h, wordHex_length]

lemma sha1Hexdigest_mem (msg : List Nat) :
    ∀ c ∈ (sha1Hexdigest msg).data, c ∈ hexDigits := by
  rcases sha1Hexdigest_data msg with ⟨a, b, c, d, e, h⟩
  intro x hx
  rw [h] at hx
  simp only [List.mem_append] at hx
  rcases hx with ((((hx | hx) | hx) | hx) | hx) <;> exact wordHex_mem _ _ hx

/-- C1: the identifier generator is deterministic in its four inputs, and its
output is the literal tag cls followed by exactly the first 20 hexadecimal
digest characters of the SHA-1 content hash, a 23-character
lowercase-alphanumeric string. -/
theorem C1_event_id_deterministic_cls_prefix_of_digest
    (c s d t c2 s2 d2 t2 : String)
    (hc : c = c2) (hs : s = s2) (hd : d = d2) (ht : t = t2) :
    generate_event_id c s d t = generate_event_id c2 s2 d2 t2 ∧
    generate_event_id c s d t =
      "cls" ++ String.mk
        ((sha1Hexdigest (utf8Encode (c ++ "-" ++ s ++ "-" ++ d ++ "-" ++ t))).data.take 20) ∧
    (generate_event_id c s d t).length = 23 ∧
    (∀ ch ∈ (generate_event_id c s d t).data,
      ch = 'c' ∨ ch = 'l' ∨ ch = 's' ∨ ch ∈ hexDigits) ∧
    (∀ ch ∈ (generate_event_id c s d t).data, isLowerAlnum ch = true) := by
  subst hc hs hd ht
  have hdata : (generate_event_id c s d t).data =
      'c' :: 'l' :: 's' ::
        ((sha1Hexdigest (utf8Encode (c ++ "-" ++ s ++ "-" ++ d ++ "-" ++ t))).data.take 20) := by
    simp [generate_event_id, String.data_append]
  refine ⟨rfl, rfl, ?_, ?_, ?_⟩
  · show (generate_event_id c s d t).data.length = 23
    rw [hdata]
    have h40 := sha1Hexdigest_length (utf8Encode (c ++ "-" ++ s ++ "-" ++ d ++ "-" ++ t))
    simp only [List.length_cons, List.length_take]
    omega
  · intro ch hch
    rw [hdata] at hch
    simp only [List.mem_cons] at hch
    rcases hch with h | h | h | h
    · exact Or.inl h
    · exact Or.inr (Or.inl h)
    · exact Or.inr (Or.inr (Or.inl h))
    · exact Or.inr (Or.inr (Or.inr (sha1Hexdigest_mem _ ch (List.take_subset _ _ h))))
  · intro ch hch
    rw [hdata] at hch
    simp only [List.mem_cons] at hch
    rcases hch with h | h | h | h
    · subst h; decide
    · subst h; decide
    · subst h; decide
    · exact hexDigits_lowerAlnum ch (sha1Hexdigest_mem _ ch (List.take_subset _ _ h))

set_option maxRecDepth 10000 in
/-- Witness for C1 at a concrete four-input tuple. -/
theorem C1_witness :
    generate_event_id "MATH240" "Lecture" "Monday" "10:00 AM" =
      generate_event_id "MATH240" "Lecture" "Monday" "10:00 AM" ∧
    (generate_event_id "MATH240" "Lecture" "Monday" "10:00 AM").length = 23 := by
  have h := C1_event_id_deterministic_cls_prefix_of_digest
    "MATH240" "Lecture" "Monday" "10:00 AM"
    "MATH240" "Lecture" "Monday" "10:00 AM" rfl rfl rfl rfl
  exact ⟨h.1, h.2.2.1⟩

lemma daysInMonth_pos (y m : Nat) : 1 ≤ daysInMonth y m := by
  unfold daysInMonth
  split
  · split <;> omega
  · split <;> omega

lemma nextDay_valid (d : Date) (h : ValidDate d) : ValidDate (nextDay d) := by
  obtain ⟨hy, hm1, hm2, hd1, hd2⟩ := h
  unfold nextDay
  split
  · rename_i hlt
    unfold ValidDate
    dsimp only
    exact ⟨hy, hm1, hm2, by omega, by omega⟩
  · split
    · rename_i hge hm12
      unfold ValidDate
      dsimp only
      exact ⟨hy, by omega, by omega, le_refl 1, daysInMonth_pos _ _⟩
    · unfold ValidDate
      dsimp only
      exact ⟨by omega, by omega, by omega, by omega, daysInMonth_pos _ _⟩

lemma daysBeforeMonth_succ (y m : Nat) (h1 : 1 ≤ m) (h2 : m ≤ 11) :
    daysBeforeMonth y (m + 1) = daysBeforeMonth y m + daysInMonth y m := by
  rcases Bool.eq_false_or_eq_true (isLeap y) with hl | hl <;>
  · interval_cases m <;> simp [daysBeforeMonth, daysInMonth, hl]

set_option maxHeartbeats 2000000 in
lemma daysBeforeYear_succ (y : Nat) (hy : 1 ≤ y) :
    daysBeforeYear (y + 1) = daysBeforeYear y + 365 + (if isLeap y then 1 else 0) := by
  unfold daysBeforeYear
  split
  · rename_i hl
    simp only [isLeap, Bool.or_eq_true, Bool.and_eq_true, beq_iff_eq, bne_iff_ne,
      ne_eq] at hl
    omega
  · rename_i hl
    simp only [isLeap, Bool.or_eq_true, Bool.and_eq_true, beq_iff_eq, bne_iff_ne,
      ne_eq, not_or, not_and, not_not] at hl
    omega

lemma toOrdinal_nextDay (d : Date) (h : ValidDate d) :
    toOrdinal (nextDay d) = toOrdinal d + 1 := by
  obtain ⟨hy, hm1, hm2, hd1, hd2⟩ := h
  unfold nextDay
  split
  · rename_i hlt
    dsimp [toOrdinal]
    omega
  · split
    · rename_i hge hm12
      have hday : d.day = daysInMonth d.year d.month := by omega
      have hm11 : d.month ≤ 11 := by omega
      dsimp [toOrdinal]
      rw [daysBeforeMonth_succ d.year d.month hm1 hm11]
      omega
    · rename_i hge hm12
      have hm : d.month = 12 := by omega
      have h31 : daysInMonth d.year d.month = 31 := by
        rw [hm]
        simp [daysInMonth]
      have hday : d.day = 31 := by omega
      dsimp [toOrdinal]
      rw [daysBeforeYear_succ d.year hy, hm, hday]
      rcases Bool.eq_false_or_eq_true (isLeap d.year) with hl | hl <;>
        simp [daysBeforeMonth, hl]

lemma toOrdinal_iterate (d : Date) (h : ValidDate d) (n : Nat) :
    toOrdinal (nextDay^[n] d) = toOrdinal d + n ∧ ValidDate (nextDay^[n] d) := by
  induction n with
  | zero => exact ⟨by simp, by simpa using h⟩
  | succ n ih =>
    obtain ⟨h1, h2⟩ := ih
    rw [Function.iterate_succ_apply']
    refine ⟨?_, nextDay_valid _ h2⟩
    rw [toOrdinal_nextDay _ h2, h1]
    omega

lemma DAY_TO_INT_le (w : String) (t : Nat) (h : DAY_TO_INT w = some t) : t ≤ 6 := by
  unfold DAY_TO_INT at h
  repeat' split at h
  all_goals (try simp_all)
  all_goals omega

lemma monthFieldOK_bounds (l : List Char) (h : monthFieldOK l = true) :
    1 ≤ digitsVal l ∧ digitsVal l ≤ 12 := by
  unfold monthFieldOK at h
  rw [Bool.and_eq_true] at h
  obtain ⟨-, h⟩ := h
  rcases l with _ | ⟨a, l⟩
  · simp at h
  rcases l with _ | ⟨b, l⟩
  · simp only [decide_eq_true_eq] at h
    omega
  rcases l with _ | ⟨c, l⟩
  · simp only [decide_eq_true_eq] at h
    omega
  · simp at h

lemma dayFieldOK_pos (l : List Char) (h : dayFieldOK l = true) :
    1 ≤ digitsVal l := by
  unfold dayFieldOK at h
  rw [Bool.and_eq_true] at h
  obtain ⟨-, h⟩ := h
  rcases l with _ | ⟨a, l⟩
  · simp at h
  rcases l with _ | ⟨b, l⟩
  · simp only [decide_eq_true_eq] at h
    omega
  rcases l with _ | ⟨c, l⟩
  · simp only [decide_eq_true_eq] at h
    omega
  · simp at h

lemma parseDate_valid (s : String) (d : Date) (h : parseDate s = some d) :
    ValidDate d := by
  unfold parseDate at h
  split at h
  · rename_i ys ms ds heq
    split at h
    · rename_i hOK
      split at h
      · rename_i hRange
        simp only [Option.some.injEq] at h
        subst h
        simp only [Bool.and_eq_true] at hOK
        obtain ⟨⟨hys, hms⟩, hds⟩ := hOK
        obtain ⟨hm1, hm2⟩ := monthFieldOK_bounds ms hms
        unfold ValidDate
        dsimp only
        exact ⟨hRange.1, hm1, hm2, dayFieldOK_pos ds hds, hRange.2⟩
      · exact absurd h (by simp)
    · exact absurd h (by simp)
  · exact absurd h (by simp)

/-- C2: for every term start date and every recognized weekday name, the
first occurrence is termStart advanced by the non-negative modulo offset
((target - weekday(termStart)) mod 7), which is the first date on or after
the term start whose weekday matches; when the term start already matches,
it is returned unchanged. -/
theorem C2_first_occurrence_correct (s w : String) (d0 : Date) (target : Nat)
    (hp : parseDate s = some d0) (hw : DAY_TO_INT w = some target) :
    ∃ delta : Nat,
      delta = (target + 7 - pyWeekday d0) % 7 ∧
      calculate_first_occurrence s w = some (nextDay^[delta] d0) ∧
      toOrdinal (nextDay^[delta] d0) = toOrdinal d0 + delta ∧
      pyWeekday (nextDay^[delta] d0) = target ∧
      (∀ k : Nat, k < delta → pyWeekday (nextDay^[k] d0) ≠ target) ∧
      (pyWeekday d0 = target → calculate_first_occurrence s w = some d0) := by
  have hv : ValidDate d0 := parseDate_valid s d0 hp
  have ht : target ≤ 6 := DAY_TO_INT_le w target hw
  have hw0 : pyWeekday d0 = (toOrdinal d0 + 6) % 7 := rfl
  have hw7 : pyWeekday d0 < 7 := by omega
  have hδ : (((target : Int) - (pyWeekday d0 : Int)) % 7).toNat =
      (target + 7 - pyWeekday d0) % 7 := by omega
  have hcalc : calculate_first_occurrence s w =
      some (nextDay^[(((target : Int) - (pyWeekday d0 : Int)) % 7).toNat] d0) := by
    simp only [calculate_first_occurrence, hp, hw]
  refine ⟨(((target : Int) - (pyWeekday d0 : Int)) % 7).toNat, hδ, hcalc, ?_, ?_, ?_, ?_⟩
  · exact (toOrdinal_iterate d0 hv _).1
  · show (toOrdinal (nextDay^[(((target : Int) - (pyWeekday d0 : Int)) % 7).toNat] d0) + 6)
        % 7 = target
    rw [(toOrdinal_iterate d0 hv _).1]
    omega
  · intro k hk heq
    have hko : pyWeekday (nextDay^[k] d0) = (toOrdinal d0 + k + 6) % 7 := by
      show (toOrdinal (nextDay^[k] d0) + 6) % 7 = _
      rw [(toOrdinal_iterate d0 hv k).1]
    rw [hko] at heq
    omega
  · intro h0
    have hz : (((target : Int) - (pyWeekday d0 : Int)) % 7).toNat = 0 := by omega
    rw [hcalc, hz]
    simp

/-- Witness for C2 at the three concrete examples of the specification. -/
theorem C2_witness :
    calculate_first_occurrence "2024-01-01" "Monday" = some ⟨2024, 1, 1⟩ ∧
    calculate_first_occurrence "2024-01-01" "Sunday" = some ⟨2024, 1, 7⟩ ∧
    calculate_first_occurrence "2024-01-03" "Monday" = some ⟨2024, 1, 8⟩ := by
  obtain ⟨delta, hδ, hcalc, -, -, -, hfix⟩ :=
    C2_first_occurrence_correct "2024-01-01" "Monday" ⟨2024, 1, 1⟩ 0
      (by decide) (by decide)
  refine ⟨?_, by decide, by decide⟩
  rw [hfix (by decide)]

lemma buildEvent_some (ts ru tz : String) (fns : List String) (row : List String)
    (e : EventBody) (h : buildEvent ts ru tz fns row = some e) :
    ∃ fd st et,
      calculate_first_occurrence ts (pyStrip (getCol fns row "Day")) = some fd ∧
      parse12h (pyStrip (getCol fns row "Start Time")) = some st ∧
      parse12h (pyStrip (getCol fns row "End Time")) = some et ∧
      e = { summary := pyStrip (getCol fns row "Course Code") ++ " â€“ " ++
              pyStrip (getCol fns row "Course Name") ++ " (" ++
              classifySession (pyStrip (getCol fns row "Course Name")) ++ ")",
            location := pyStrip (getCol fns row "Location"),
            description := "Session: " ++
              classifySession (pyStrip (getCol fns row "Course Name")) ++
              "\nCourse: " ++ pyStrip (getCol fns row "Course Name"),
            startDateTime := dateTimeFormat fd st.1 st.2,
            endDateTime := dateTimeFormat fd et.1 et.2,
            timeZone := tz,
            recurrence := "RRULE:FREQ=WEEKLY;UNTIL=" ++ ru,
            id := generate_event_id (pyStrip (getCol fns row "Course Code"))
              (classifySession (pyStrip (getCol fns row "Course Name")))
              (pyStrip (getCol fns row "Day"))
              (pyStrip (getCol fns row "Start Time")) } := by
  simp only [buildEvent] at h
  rcases hfd : calculate_first_occurrence ts (pyStrip (getCol fns row "Day"))
    with _ | fd
  · rw [hfd] at h
    simp at h
  rcases hst : parse12h (pyStrip (getCol fns row "Start Time")) with _ | st
  · rw [hfd, hst] at h
    simp at h
  rcases het : parse12h (pyStrip (getCol fns row "End Time")) with _ | et
  · rw [hfd, hst, het] at h
    simp at h
  rw [hfd, hst, het] at h
  simp only [Option.some.injEq] at h
  exact ⟨fd, st, et, rfl, rfl, rfl, h.symm⟩

/-- C3: the recurrence boundary placed in the RRULE is the configured term
end date plus one calendar day (its ordinal successor), formatted as the
zone-less UTC midnight timestamp YYYYMMDDT000000Z, and term_end_date
2024-04-05 yields the token 20240406T000000Z. -/
theorem C3_recurrence_boundary (s : String) (d : Date)
    (hp : parseDate s = some d) (hy : 1000 ≤ d.year) :
    recurrence_end_of s = some (dateBasicFormat (nextDay d) ++ "T000000Z") ∧
    toOrdinal (nextDay d) = toOrdinal d + 1 ∧
    (∀ ru ts tz fns row e, recurrence_end_of s = some ru →
      buildEvent ts ru tz fns row = some e →
      e.recurrence = "RRULE:FREQ=WEEKLY;UNTIL=" ++ ru) ∧
    recurrence_end_of "2024-04-05" = some "20240406T000000Z" := by
  refine ⟨?_, ?_, ?_, by decide⟩
  · simp [recurrence_end_of, hp]
  · exact toOrdinal_nextDay d (parseDate_valid s d hp)
  · intro ru ts tz fns row e hru hb
    obtain ⟨fd, st, et, -, -, -, he⟩ := buildEvent_some ts ru tz fns row e hb
    rw [he]

/-- Witness for C3 at the concrete term end date of the specification. -/
theorem C3_witness :
    recurrence_end_of "2024-04-05" = some "20240406T000000Z" ∧
    (∃ d, parseDate "2024-04-05" = some d ∧ toOrdinal (nextDay d) = toOrdinal d + 1) := by
  obtain ⟨h1, h2, -, -⟩ :=
    C3_recurrence_boundary "2024-04-05" ⟨2024, 4, 5⟩ (by decide) (by norm_num)
  exact ⟨by decide, ⟨2024, 4, 5⟩, by decide, h2⟩

/-- C4: the row classifier lower-cases the course name and tests the lab
substring before the tutorial substring, defaulting to Lecture; a name
containing both substrings classifies as Lab. -/
theorem C4_classifier_precedence (name : String) :
    (pyIn "lab" (pyLower name) = true → classifySession name = "Lab") ∧
    (pyIn "lab" (pyLower name) = false → pyIn "tutorial" (pyLower name) = true →
      classifySession name = "Tutorial") ∧
    (pyIn "lab" (pyLower name) = false → pyIn "tutorial" (pyLower name) = false →
      classifySession name = "Lecture") ∧
    classifySession "Intro to Robotics Lab Tutorial" = "Lab" := by
  refine ⟨?_, ?_, ?_, by decide⟩
  · intro h
    simp [classifySession, h]
  · intro h1 h2
    simp [classifySession, h1, h2]
  · intro h1 h2
    simp [classifySession, h1, h2]

/-- Witness for C4 at concrete course names, including one containing both
substrings. -/
theorem C4_witness :
    classifySession "Intro to Robotics Lab Tutorial" = "Lab" ∧
    classifySession "Physics Tutorial" = "Tutorial" ∧
    classifySession "Calculus II" = "Lecture" := by
  refine ⟨(C4_classifier_precedence "Intro to Robotics Lab Tutorial").1 (by decide),
    (C4_classifier_precedence "Physics Tutorial").2.1 (by decide) (by decide),
    (C4_classifier_precedence "Calculus II").2.2.1 (by decide) (by decide)⟩

lemma calc_none_iff (ts day : String) (d0 : Date) (hp : parseDate ts = some d0) :
    calculate_first_occurrence ts day = none ↔ DAY_TO_INT day = none := by
  rcases hD : DAY_TO_INT day with _ | t <;>
    simp [calculate_first_occurrence, hp, hD]

lemma buildEvent_none_iff (ts ru tz : String) (fns : List String)
    (row : List String) :
    buildEvent ts ru tz fns row = none ↔
      (calculate_first_occurrence ts (pyStrip (getCol fns row "Day")) = none ∨
       parse12h (pyStrip (getCol fns row "Start Time")) = none ∨
       parse12h (pyStrip (getCol fns row "End Time")) = none) := by
  rcases hfd : calculate_first_occurrence ts (pyStrip (getCol fns row "Day"))
      with _ | fd <;>
    rcases hst : parse12h (pyStrip (getCol fns row "Start Time")) with _ | st <;>
    rcases het : parse12h (pyStrip (getCol fns row "End Time")) with _ | et <;>
    simp [buildEvent, hfd, hst, het]

lemma runRows_cons_none {σ : Type} (sink : σ → EventBody → σ × SinkResp)
    (ts ru tz : String) (fns : List String) (s0 : σ) (row : List String)
    (rest : List (List String)) (h : buildEvent ts ru tz fns row = none) :
    runRows sink ts ru tz fns s0 (row :: rest) =
      ((runRows sink ts ru tz fns s0 rest).1,
        Outcome.skippedRow :: (runRows sink ts ru tz fns s0 rest).2) := by
  simp [runRows, h]

lemma runRows_cons_some {σ : Type} (sink : σ → EventBody → σ × SinkResp)
    (ts ru tz : String) (fns : List String) (s0 : σ) (row : List String)
    (rest : List (List String)) (e : EventBody)
    (h : buildEvent ts ru tz fns row = some e) :
    runRows sink ts ru tz fns s0 (row :: rest) =
      ((runRows sink ts ru tz fns (sink s0 e).1 rest).1,
        classifyResp (sink s0 e).2 ::
          (runRows sink ts ru tz fns (sink s0 e).1 rest).2) := by
  simp [runRows, h]

lemma runRows_length {σ : Type} (sink : σ → EventBody → σ × SinkResp)
    (ts ru tz : String) (fns : List String) (rows : List (List String)) (s0 : σ) :
    (runRows sink ts ru tz fns s0 rows).2.length = rows.length := by
  induction rows generalizing s0 with
  | nil => rfl
  | cons row rest ih =>
    rcases h : buildEvent ts ru tz fns row with _ | e <;> simp [runRows, h, ih]

lemma runRows_append {σ : Type} (sink : σ → EventBody → σ × SinkResp)
    (ts ru tz : String) (fns : List String) (l1 l2 : List (List String)) (s0 : σ) :
    runRows sink ts ru tz fns s0 (l1 ++ l2) =
      ((runRows sink ts ru tz fns (runRows sink ts ru tz fns s0 l1).1 l2).1,
        (runRows sink ts ru tz fns s0 l1).2 ++
          (runRows sink ts ru tz fns (runRows sink ts ru tz fns s0 l1).1 l2).2) := by
  induction l1 generalizing s0 with
  | nil => simp [runRows]
  | cons row rest ih =>
    rcases h : buildEvent ts ru tz fns row with _ | e <;> simp [runRows, h, ih]

set_option maxRecDepth 100000 in
/-- C5: a row whose weekday name is unrecognized or whose start or end time
fails 12-hour parsing is recorded as a skipped outcome while the remaining
rows are processed unchanged and in their original order, for any sink; the
concrete five-row batch whose third row has day Funday yields exactly four
successful outcomes and one skipped outcome in position three. -/
theorem C5_malformed_row_skipped {σ : Type} (sink : σ → EventBody → σ × SinkResp)
    (ts ru tz : String) (fns : List String) (s0 : σ)
    (pre post : List (List String)) (badRow : List String)
    (hbad : buildEvent ts ru tz fns badRow = none) :
    (∀ row : List String, ∀ d0 : Date, parseDate ts = some d0 →
      (buildEvent ts ru tz fns row = none ↔
        DAY_TO_INT (pyStrip (getCol fns row "Day")) = none ∨
        parse12h (pyStrip (getCol fns row "Start Time")) = none ∨
        parse12h (pyStrip (getCol fns row "End Time")) = none)) ∧
    (runRows sink ts ru tz fns s0 (pre ++ badRow :: post)).1 =
      (runRows sink ts ru tz fns s0 (pre ++ post)).1 ∧
    (runRows sink ts ru tz fns s0 (pre ++ badRow :: post)).2 =
      (runRows sink ts ru tz fns s0 pre).2 ++ Outcome.skippedRow ::
        (runRows sink ts ru tz fns (runRows sink ts ru tz fns s0 pre).1 post).2 ∧
    (runRows sink ts ru tz fns s0 (pre ++ post)).2 =
      (runRows sink ts ru tz fns s0 pre).2 ++
        (runRows sink ts ru tz fns (runRows sink ts ru tz fns s0 pre).1 post).2 ∧
    (∀ rows : List (List String),
      (runRows sink ts ru tz fns s0 rows).2.length = rows.length) ∧
    (runRows storeSink "2024-01-08" "20240406T000000Z" "America/Toronto"
        required_headers [] exRows).2 =
      [Outcome.created, Outcome.created, Outcome.skippedRow, Outcome.created,
       Outcome.created] := by
  refine ⟨?_, ?_, ?_, ?_, ?_, by decide⟩
  · intro row d0 hp
    rw [buildEvent_none_iff, calc_none_iff ts _ d0 hp]
  · rw [runRows_append, runRows_append,
      runRows_cons_none sink ts ru tz fns _ badRow post hbad]
  · rw [runRows_append, runRows_cons_none sink ts ru tz fns _ badRow post hbad]
  · rw [runRows_append]
  · intro rows
    exact runRows_length sink ts ru tz fns rows s0

set_option maxRecDepth 100000 in
/-- Witness for C5 at the concrete Funday batch, split around its third row. -/
theorem C5_witness :
    (runRows storeSink "2024-01-08" "20240406T000000Z" "America/Toronto"
        required_headers ([] : List String)
        ([["Calculus", "MATH101", "Monday", "9:00 AM", "10:00 AM", "R1"],
          ["Physics", "PHYS101", "Tuesday", "9:00 AM", "10:00 AM", "R2"]] ++
         ["Chemistry", "CHEM101", "Funday", "9:00 AM", "10:00 AM", "R3"] ::
         [["Biology", "BIOL101", "Thursday", "9:00 AM", "10:00 AM", "R4"],
          ["English", "ENGL101", "Friday", "9:00 AM", "10:00 AM", "R5"]])).2 =
      (runRows storeSink "2024-01-08" "20240406T000000Z" "America/Toronto"
        required_headers ([] : List String)
        [["Calculus", "MATH101", "Monday", "9:00 AM", "10:00 AM", "R1"],
         ["Physics", "PHYS101", "Tuesday", "9:00 AM", "10:00 AM", "R2"]]).2 ++
      Outcome.skippedRow ::
      (runRows storeSink "2024-01-08" "20240406T000000Z" "America/Toronto"
        required_headers
        ((runRows storeSink "2024-01-08" "20240406T000000Z" "America/Toronto"
          required_headers ([] : List String)
          [["Calculus", "MATH101", "Monday", "9:00 AM", "10:00 AM", "R1"],
           ["Physics", "PHYS101", "Tuesday", "9:00 AM", "10:00 AM", "R2"]]).1)
        [["Biology", "BIOL101", "Thursday", "9:00 AM", "10:00 AM", "R4"],
         ["English", "ENGL101", "Friday", "9:00 AM", "10:00 AM", "R5"]]).2 :=
  (C5_malformed_row_skipped storeSink "2024-01-08" "20240406T000000Z"
    "America/Toronto" required_headers ([] : List String)
    [["Calculus", "MATH101", "Monday", "9:00 AM", "10:00 AM", "R1"],
     ["Physics", "PHYS101", "Tuesday", "9:00 AM", "10:00 AM", "R2"]]
    [["Biology", "BIOL101", "Thursday", "9:00 AM", "10:00 AM", "R4"],
     ["English", "ENGL101", "Friday", "9:00 AM", "10:00 AM", "R5"]]
    ["Chemistry", "CHEM101", "Funday", "9:00 AM", "10:00 AM", "R3"]
    (by decide)).2.2.1

lemma runRows_store_mono (ts ru tz : String) (fns : List String)
    (rows : List (List String)) :
    ∀ (s : List String) (x : String), x ∈ s →
      x ∈ (runRows storeSink ts ru tz fns s rows).1 := by
  induction rows with
  | nil => intro s x hx; exact hx
  | cons row rest ih =>
    intro s x hx
    rcases h : buildEvent ts ru tz fns row with _ | e
    · rw [runRows_cons_none _ _ _ _ _ _ _ _ h]
      exact ih s x hx
    · rw [runRows_cons_some _ _ _ _ _ _ _ _ _ h]
      dsimp only
      apply ih
      unfold storeSink
      split
      · exact hx
      · exact List.mem_cons_of_mem _ hx

lemma runRows_ids_present (ts ru tz : String) (fns : List String)
    (rows : List (List String)) :
    ∀ (s0 : List String) (r : List String), r ∈ rows →
      ∀ e, buildEvent ts ru tz fns r = some e →
        e.id ∈ (runRows storeSink ts ru tz fns s0 rows).1 := by
  induction rows with
  | nil => intro s0 r hr; cases hr
  | cons row rest ih =>
    intro s0 r hr e he
    rcases List.mem_cons.mp hr with rfl | hr2
    · rw [runRows_cons_some _ _ _ _ _ _ _ _ _ he]
      dsimp only
      apply runRows_store_mono
      unfold storeSink
      split
      · rename_i hin
        exact hin
      · exact List.mem_cons_self _ _
    · rcases h : buildEvent ts ru tz fns row with _ | e2
      · rw [runRows_cons_none _ _ _ _ _ _ _ _ h]
        exact ih _ r hr2 e he
      · rw [runRows_cons_some _ _ _ _ _ _ _ _ _ h]
        dsimp only
        exact ih _ r hr2 e he

lemma runRows_allPresent (ts ru tz : String) (fns : List String)
    (rows : List (List String)) :
    ∀ s : List String,
      (∀ r ∈ rows, ∀ e, buildEvent ts ru tz fns r = some e → e.id ∈ s) →
      runRows storeSink ts ru tz fns s rows =
        (s, rows.map (fun r => if (buildEvent ts ru tz fns r).isSome
          then Outcome.alreadyExists else Outcome.skippedRow)) := by
  induction rows with
  | nil => intro s _; rfl
  | cons row rest ih =>
    intro s h
    rcases hb : buildEvent ts ru tz fns row with _ | e
    · rw [runRows_cons_none _ _ _ _ _ _ _ _ hb,
        ih s (fun r hr => h r (List.mem_cons_of_mem _ hr))]
      simp [hb]
    · have hid : e.id ∈ s := h row (List.mem_cons_self _ _) e hb
      rw [runRows_cons_some _ _ _ _ _ _ _ _ _ hb]
      have hsink : storeSink s e = (s, SinkResp.err 409) := by
        unfold storeSink
        simp [hid]
      rw [hsink]
      dsimp only
      rw [ih s (fun r hr => h r (List.mem_cons_of_mem _ hr))]
      simp [hb, classifyResp]

lemma count_map_outcomes (ts ru tz : String) (fns : List String)
    (rows : List (List String)) :
    ((rows.map (fun r => if (buildEvent ts ru tz fns r).isSome
        then Outcome.alreadyExists else Outcome.skippedRow)).count
      Outcome.created = 0) ∧
    ((rows.map (fun r => if (buildEvent ts ru tz fns r).isSome
        then Outcome.alreadyExists else Outcome.skippedRow)).count
      Outcome.alreadyExists =
      rows.countP (fun r => (buildEvent ts ru tz fns r).isSome)) := by
  induction rows with
  | nil => exact ⟨rfl, rfl⟩
  | cons row rest ih =>
    rcases hb : buildEvent ts ru tz fns row with _ | e <;>
      simp [List.count_cons, List.countP_cons, hb, ih.1, ih.2]

/-- C6: a sink response with HTTP status 409 (duplicate identifier) is
classified as the success-equivalent AlreadyExists outcome, never as a
failure; any other sink error marks the row failed; in both cases the batch
continues with the next row; and re-submitting an unchanged table to the
idempotent sink yields zero Created outcomes and exactly one AlreadyExists
outcome per successfully built row. -/
theorem C6_conflict_success_equivalent :
    (classifyResp SinkResp.ok = Outcome.created) ∧
    (classifyResp (SinkResp.err 409) = Outcome.alreadyExists ∧
      Outcome.alreadyExists ≠ Outcome.failed) ∧
    (∀ st : Nat, st ≠ 409 → classifyResp (SinkResp.err st) = Outcome.failed) ∧
    (∀ (σ : Type) (sink : σ → EventBody → σ × SinkResp) (ts ru tz : String)
       (fns : List String) (s0 : σ) (row : List String)
       (rest : List (List String)) (e : EventBody),
      buildEvent ts ru tz fns row = some e →
      (runRows sink ts ru tz fns s0 (row :: rest)).2 =
        classifyResp (sink s0 e).2 ::
          (runRows sink ts ru tz fns (sink s0 e).1 rest).2) ∧
    (∀ (ts ru tz : String) (fns : List String) (rows : List (List String))
       (s0 : List String),
      ((runRows storeSink ts ru tz fns
          (runRows storeSink ts ru tz fns s0 rows).1 rows).2.count
        Outcome.created = 0) ∧
      ((runRows storeSink ts ru tz fns
          (runRows storeSink ts ru tz fns s0 rows).1 rows).2.count
        Outcome.alreadyExists =
        rows.countP (fun r => (buildEvent ts ru tz fns r).isSome))) := by
  refine ⟨rfl, ⟨rfl, by decide⟩, ?_, ?_, ?_⟩
  · intro st h
    simp [classifyResp, h]
  · intro σ sink ts ru tz fns s0 row rest e he
    rw [runRows_cons_some _ _ _ _ _ _ _ _ _ he]
  · intro ts ru tz fns rows s0
    have hrun := runRows_allPresent ts ru tz fns rows
      (runRows storeSink ts ru tz fns s0 rows).1
      (fun r hr e he => runRows_ids_present ts ru tz fns rows s0 r hr e he)
    rw [hrun]
    exact ⟨(count_map_outcomes ts ru tz fns rows).1,
      (count_map_outcomes ts ru tz fns rows).2⟩

set_option maxRecDepth 100000 in
/-- Witness for C6: a non-409 error is a failure, and a concrete one-row
table re-submitted to the store sink yields no Created outcome. -/
theorem C6_witness :
    classifyResp (SinkResp.err 500) = Outcome.failed ∧
    ((runRows storeSink "2024-01-08" "20240406T000000Z" "America/Toronto"
        required_headers
        (runRows storeSink "2024-01-08" "20240406T000000Z" "America/Toronto"
          required_headers ([] : List String) exRows).1 exRows).2.count
      Outcome.created = 0) :=
  ⟨C6_conflict_success_equivalent.2.2.1 500 (by decide),
    (C6_conflict_success_equivalent.2.2.2.2 "2024-01-08" "20240406T000000Z"
      "America/Toronto" required_headers exRows ([] : List String)).1⟩

/-- C7: when a required column is missing from the input table, the run
aborts before processing any row: the sink state is untouched and the row
loop is never reached, for any sink and any environment. -/
theorem C7_missing_column_aborts (σ : Type) (sink : σ → EventBody → σ × SinkResp)
    (s0 : σ) (env : Env) (hd : String) (hmem : hd ∈ required_headers)
    (hmiss : env.fieldnames.contains hd = false) :
    (mainRun sink s0 env).1 = s0 ∧
    ∀ os, (mainRun sink s0 env).2 ≠ RunResult.completed os := by
  have hall : required_headers.all (fun h => env.fieldnames.contains h) = false := by
    cases hb : required_headers.all (fun h => env.fieldnames.contains h)
    · rfl
    · exact absurd (List.all_eq_true.mp hb hd hmem) (by rw [hmiss]; simp)
  unfold mainRun
  split
  · exact ⟨rfl, fun os h => RunResult.noConfusion h⟩
  split
  · exact ⟨rfl, fun os h => RunResult.noConfusion h⟩
  split
  · exact ⟨rfl, fun os h => RunResult.noConfusion h⟩
  split
  · exact ⟨rfl, fun os h => RunResult.noConfusion h⟩
  split
  · exact ⟨rfl, fun os h => RunResult.noConfusion h⟩
  · rename_i hcond
    exact absurd (by rw [hall]; rfl) hcond

/-- Witness for C7 at a concrete table lacking the Location column. -/
theorem C7_witness :
    (mainRun storeSink ([] : List String) envNoLocation).1 = [] ∧
    ∀ os, (mainRun storeSink ([] : List String) envNoLocation).2 ≠
      RunResult.completed os :=
  C7_missing_column_aborts (List String) storeSink [] envNoLocation "Location"
    (by decide) (by decide)

/-- C8 counterexample: a missing input table file is a fatal condition of the
claim, yet the run ends by a plain return from main — completion state 0,
not a non-zero one. -/
theorem C8_counterexample_missing_table_exit_zero :
    (mainRun storeSink ([] : List String) envNoCSV).2 = RunResult.earlyReturn ∧
    RunResult.exitStatus (mainRun storeSink ([] : List String) envNoCSV).2 = 0 ∧
    (mainRun storeSink ([] : List String) envNoCSV).1 = [] := by
  refine ⟨by decide, by decide, by decide⟩

/-- C8 amended: a missing configuration file and missing credential material
exit with status 1; a missing input table file and a missing required column
end the run by a plain return (exit status 0); all four conditions stop the
run before any row is processed, leaving the sink untouched. -/
theorem C8_amended_fatal_conditions (σ : Type)
    (sink : σ → EventBody → σ × SinkResp) (s0 : σ) (env : Env) :
    (env.configExists = false → mainRun sink s0 env = (s0, RunResult.fatalExit 1)) ∧
    (env.configExists = true → env.csvExists = false →
      mainRun sink s0 env = (s0, RunResult.earlyReturn)) ∧
    (env.configExists = true → env.csvExists = true → env.credentialsOK = false →
      mainRun sink s0 env = (s0, RunResult.fatalExit 1)) ∧
    (env.configExists = true → env.csvExists = true → env.credentialsOK = true →
      (∃ ru, recurrence_end_of env.config.term_end_date = some ru) →
      required_headers.all (fun hd => env.fieldnames.contains hd) = false →
      mainRun sink s0 env = (s0, RunResult.earlyReturn)) ∧
    RunResult.exitStatus (RunResult.fatalExit 1) = 1 ∧
    RunResult.exitStatus RunResult.earlyReturn = 0 := by
  refine ⟨?_, ?_, ?_, ?_, rfl, rfl⟩
  · intro h1
    simp [mainRun, h1]
  · intro h1 h2
    simp [mainRun, h1, h2]
  · intro h1 h2 h3
    simp [mainRun, h1, h2, h3]
  · intro h1 h2 h3 hru hall
    obtain ⟨ru, hru⟩ := hru
    unfold mainRun
    rw [h1, h2, h3, hru, hall]
    simp

/-- Witness for C8 at four concrete environments, one per fatal condition. -/
theorem C8_witness :
    mainRun storeSink ([] : List String) envNoConfig = ([], RunResult.fatalExit 1) ∧
    mainRun storeSink ([] : List String) envNoCSV = ([], RunResult.earlyReturn) ∧
    mainRun storeSink ([] : List String) envNoCreds = ([], RunResult.fatalExit 1) ∧
    mainRun storeSink ([] : List String) envNoLocation = ([], RunResult.earlyReturn) :=
  ⟨(C8_amended_fatal_conditions (List String) storeSink [] envNoConfig).1 (by decide),
   (C8_amended_fatal_conditions (List String) storeSink [] envNoCSV).2.1
     (by decide) (by decide),
   (C8_amended_fatal_conditions (List String) storeSink [] envNoCreds).2.2.1
     (by decide) (by decide) (by decide),
   (C8_amended_fatal_conditions (List String) storeSink [] envNoLocation).2.2.2.1
     (by decide) (by decide) (by decide) ⟨"20240406T000000Z", by decide⟩ (by decide)⟩

set_option maxRecDepth 100000 in
/-- C9: the identifier submitted with a built row is generated from the
stripped start-time cell text exactly as it appears in the row — not from
the parsed time — so two textual forms of the same instant produce
different identifiers. -/
theorem C9_id_uses_raw_time_text (ts ru tz : String) (fns : List String)
    (row : List String) (e : EventBody)
    (h : buildEvent ts ru tz fns row = some e) :
    e.id = generate_event_id (pyStrip (getCol fns row "Course Code"))
      (classifySession (pyStrip (getCol fns row "Course Name")))
      (pyStrip (getCol fns row "Day"))
      (pyStrip (getCol fns row "Start Time")) ∧
    parse12h "9:00 AM" = parse12h "09:00 AM" ∧
    generate_event_id "X" "Lecture" "Monday" "9:00 AM" ≠
      generate_event_id "X" "Lecture" "Monday" "09:00 AM" := by
  obtain ⟨fd, st, et, -, -, -, he⟩ := buildEvent_some ts ru tz fns row e h
  subst he
  exact ⟨rfl, by decide, by decide⟩

set_option maxRecDepth 100000 in
/-- Witness for C9 at a concrete built row. -/
theorem C9_witness :
    ∃ e, buildEvent "2024-01-08" "20240406T000000Z" "America/Toronto"
        required_headers
        ["Algorithms", "CS101", "Monday", "10:00 AM", "11:00 AM", "R1"] = some e ∧
      e.id = generate_event_id "CS101" "Lecture" "Monday" "10:00 AM" := by
  obtain ⟨e, he⟩ : ∃ e, buildEvent "2024-01-08" "20240406T000000Z"
      "America/Toronto" required_headers
      ["Algorithms", "CS101", "Monday", "10:00 AM", "11:00 AM", "R1"] = some e := by
    rcases h : buildEvent "2024-01-08" "20240406T000000Z" "America/Toronto"
        required_headers
        ["Algorithms", "CS101", "Monday", "10:00 AM", "11:00 AM", "R1"] with _ | e
    · exact absurd h (by decide)
    · exact ⟨e, rfl⟩
  refine ⟨e, he, ?_⟩
  rw [(C9_id_uses_raw_time_text "2024-01-08" "20240406T000000Z" "America/Toronto"
    required_headers ["Algorithms", "CS101", "Monday", "10:00 AM", "11:00 AM", "R1"]
    e he).1]
  decide

set_option maxRecDepth 100000 in
/-- C10 divergence: at a concrete row the built summary separates course
code and name by the three characters U+00E2 U+20AC U+201C (a mojibake of
the en dash in the source), not by the en dash U+2013 the claim states; the
two-line description matches the claim. -/
theorem C10_summary_mojibake_at_failing_input :
    ((buildEvent "2024-01-08" "20240406T000000Z" "America/Toronto"
        required_headers
        ["Algorithms", "CS101", "Monday", "10:00 AM", "11:00 AM", "R1"]).map
      (fun e => e.summary)) = some "CS101 â€“ Algorithms (Lecture)" ∧
    ((buildEvent "2024-01-08" "20240406T000000Z" "America/Toronto"
        required_headers
        ["Algorithms", "CS101", "Monday", "10:00 AM", "11:00 AM", "R1"]).map
      (fun e => e.summary)) ≠ some "CS101 – Algorithms (Lecture)" ∧
    ((buildEvent "2024-01-08" "20240406T000000Z" "America/Toronto"
        required_headers
        ["Algorithms", "CS101", "Monday", "10:00 AM", "11:00 AM", "R1"]).map
      (fun e => e.description)) = some "Session: Lecture\nCourse: Algorithms" := by
  refine ⟨by decide, by decide, by decide⟩
